import Mathlib

/-!
Verification of the VoxReader library (`src/VoxReader.hpp`, the
`JIM_VOXREADER_IMPLEMENTATION` section, which subsumes the older draft in
`src/VoxReader.cpp`).

The C++ code is shallowly embedded: byte streams become `List Nat` (each
element a byte value), `std::istream` reads become list destructuring,
machine integers become `Nat`/`Int` with explicit reductions modulo `2^32`
(for `uint32_t`) and `2^8` (for `uint8_t`), and every place where the C++
performs an out-of-bounds access or otherwise runs into undefined behaviour
is made explicit as an error value (`Option.none` for the raw pointer
helpers, `LoadErr.oob` for the reader).
-/

namespace VoxReader

/-- Little-endian assembly of four bytes into an unsigned 32-bit value, as
done by `readInt` in the source (bytes are reduced mod 256 so the function
is total on arbitrary naturals). -/
def le32 (b0 b1 b2 b3 : Nat) : Nat :=
  b0 % 256 + 256 * (b1 % 256) + 65536 * (b2 % 256) + 16777216 * (b3 % 256)

/-- Reinterpretation of an unsigned 32-bit value as a signed `int`, matching
the `return integer;` conversion in `readInt` (which returns `int`). -/
def toInt32 (u : Nat) : Int :=
  if u % 4294967296 < 2147483648 then (u % 4294967296 : Int)
  else (u % 4294967296 : Int) - 4294967296

/-- Little-endian encoding of a natural number as four bytes; used to build
the byte streams the decoder is run on. -/
def le32enc (n : Nat) : List Nat :=
  [n % 256, n / 256 % 256, n / 65536 % 256, n / 16777216 % 256]

/-- Read four little-endian bytes at offset `i` of a buffer, as
`readInt(&buf[i])` does; `none` when fewer than four bytes are available
(in the C++ this would be a read past the end of the vector). -/
def getLe32 (l : List Nat) (i : Nat) : Option Nat :=
  match l.drop i with
  | b0 :: b1 :: b2 :: b3 :: _ => some (le32 b0 b1 b2 b3)
  | _ => none

/-- Read a 4-byte little-endian `int` from the front of a buffer and return
the rest, mirroring `readInt(ptr); ptr += 4;`. -/
def readInt32 : List Nat → Option (Int × List Nat)
  | b0 :: b1 :: b2 :: b3 :: s => some (toInt32 (le32 b0 b1 b2 b3), s)
  | _ => none

/-- A generic chunk: 4 tag bytes, raw content bytes, child chunks
(`VoxReader::Chunk`). -/
inductive Chunk where
  | mk (id : List Nat) (content : List Nat) (children : List Chunk)

def Chunk.id : Chunk → List Nat
  | .mk i _ _ => i

def Chunk.content : Chunk → List Nat
  | .mk _ c _ => c

def Chunk.children : Chunk → List Chunk
  | .mk _ _ cs => cs

mutual

/-- Number of stream bytes a chunk occupies when laid out on disk:
12-byte header plus content plus the children region. -/
def chunkSize : Chunk → Nat
  | .mk _ content children => 12 + content.length + chunksSize children

def chunksSize : List Chunk → Nat
  | [] => 0
  | c :: cs => chunkSize c + chunksSize cs

end

mutual

/-- On-disk layout of a chunk: tag, content byte count, children byte
count (both 4-byte little-endian), content, then the serialized children
back-to-back. -/
def serializeChunk : Chunk → List Nat
  | .mk id content children =>
      id ++ le32enc content.length ++ le32enc (chunksSize children)
        ++ content ++ serializeChunks children

def serializeChunks : List Chunk → List Nat
  | [] => []
  | c :: cs => serializeChunk c ++ serializeChunks cs

end

mutual

/-- Embedding of the constructor `VoxReader::Chunk::Chunk(istream, int*)`.
The state is the remaining stream and the running `*byteOffset`; the result
also returns both.  `none` models a read past the end of the stream or a
negative declared content size (for which the C++ performs unchecked
failing stream reads, respectively a huge `resize`).  Recursion is by
fuel; every theorem supplies enough fuel for the input at hand. -/
def parseChunk : Nat → List Nat → Int → Option (Chunk × List Nat × Int)
  | 0, _, _ => none
  | fuel + 1, a :: b :: c :: d :: c0 :: c1 :: c2 :: c3 :: d0 :: d1 :: d2 :: d3 :: s3, off =>
    let contentSize := toInt32 (le32 c0 c1 c2 c3)
    let childrenSize := toInt32 (le32 d0 d1 d2 d3)
    if contentSize < 0 then none
    else if s3.length < contentSize.toNat then none
    else
      let content := s3.take contentSize.toNat
      let s4 := s3.drop contentSize.toNat
      let startByte := off + 12
      match parseChildren fuel startByte childrenSize s4 (startByte + contentSize) with
      | none => none
      | some (children, s5, off3) =>
          some (Chunk.mk [a, b, c, d] content children, s5, off3 + childrenSize)
  | _ + 1, _, _ => none

/-- Embedding of the child-reading loop
`while (*byteOffset - startByte < childrenSize) children.push_back(Chunk(s, byteOffset));`.
Note that `startByte` was taken before the content advance, so the content
size counts against the children region. -/
def parseChildren : Nat → Int → Int → List Nat → Int → Option (List Chunk × List Nat × Int)
  | 0, _, _, _, _ => none
  | fuel + 1, startByte, childrenSize, s, off =>
    if off - startByte < childrenSize then
      match parseChunk fuel s off with
      | none => none
      | some (c, s1, off1) =>
        match parseChildren fuel startByte childrenSize s1 off1 with
        | none => none
        | some (cs, s2, off2) => some (c :: cs, s2, off2)
    else some ([], s, off)

end

/-! Domain objects built by the scene interpreter. -/

/-- A single voxel (`jim::Voxel`): three `uint8_t` coordinates and a
colour index. -/
structure Voxel where
  x : Nat
  y : Nat
  z : Nat
  colorIndex : Nat
deriving DecidableEq, Repr

/-- A model (`jim::Model`): `uint32_t` bounds plus the voxel list. -/
structure Model where
  sizeX : Nat
  sizeY : Nat
  sizeZ : Nat
  voxels : List Voxel
deriving DecidableEq, Repr

/-- An RGBA colour in declaration order of the struct members `r, g, b, a`. -/
structure RGBA where
  r : Nat
  g : Nat
  b : Nat
  a : Nat
deriving DecidableEq, Repr

/-- The reader's palette pointer.  `defaultPalette` models
`palette == &DEFAULT_PALETTE`; `custom` a heap-allocated table;
`dangling` the state after `delete palette` without re-pointing it
(the pointer still holds the freed address). -/
inductive PaletteRef where
  | defaultPalette
  | custom (colors : List RGBA)
  | dangling
deriving DecidableEq, Repr

/-- A `Dictionary`: key/value byte-string pairs in encoded order. -/
abbrev Dict := List (List Nat × List Nat)

/-- A scene graph node (`SceneGraph::Node` with its three subclasses). -/
inductive SceneNode where
  | transform (attributes : Dict) (childNodeId : Int) (layerId : Int) (frames : List Dict)
  | group (attributes : Dict) (childIds : List Int)
  | shape (attributes : Dict) (models : List (Nat × Dict))
deriving DecidableEq, Repr

/-- The scene graph's node storage `std::vector<std::unique_ptr<Node>>`:
`none` is a null `unique_ptr`. -/
abbrev Graph := List (Option SceneNode)

/-- Everything a load can fail with.  `oob` marks the places where the C++
performs an out-of-bounds access or other undefined behaviour rather than
raising a `VoxReader::Exception`; `staleRead` marks `view2d` reading the
stored `Voxel*` after the pointed-to loop-local copy's lifetime has
ended. -/
inductive LoadErr where
  | badStream
  | badMagic
  | badVersion
  | truncated
  | unknownNode
  | reservedField
  | duplicateNode
  | oob
  | staleRead
deriving DecidableEq, Repr

/-- The mutable fields of a `VoxReader`. -/
structure ReaderState where
  models : List Model
  palette : PaletteRef
  graph : Graph
  layers : List Dict
  materials : List Dict
deriving DecidableEq, Repr

def ReaderState.empty : ReaderState :=
  { models := [], palette := .defaultPalette, graph := [], layers := [], materials := [] }

/-- Lift the raw-pointer readers' `none` (an out-of-bounds read) into the
reader's error type. -/
def orOOB : Option α → Except LoadErr α
  | some a => .ok a
  | none => .error .oob

/-! Dictionary decoding (`readString` / `readDictionary`).  The source
walks a raw `const uint8_t*` with no end pointer (the header carries the
comment `TODO: pass end of chunk ptr and check bounds`); a `none` result
below marks an input on which the C++ would read past the end of the
buffer — there is no error signalling of any kind in the source. -/

/-- Embedding of `readString`: 4-byte length then that many raw bytes.
`none` when the length is negative or exceeds the remaining bytes (the C++
would read out of bounds). -/
def readString : List Nat → Option (List Nat × List Nat)
  | b0 :: b1 :: b2 :: b3 :: s =>
    let size := toInt32 (le32 b0 b1 b2 b3)
    if 0 ≤ size ∧ size.toNat ≤ s.length then some (s.take size.toNat, s.drop size.toNat)
    else none
  | _ => none

/-- The entry loop of `readDictionary`: each entry is a key string then a
value string, kept in encoded order. -/
def readEntries : Nat → List Nat → Option (Dict × List Nat)
  | 0, s => some ([], s)
  | n + 1, s =>
    match readString s with
    | none => none
    | some (k, s1) =>
      match readString s1 with
      | none => none
      | some (v, s2) =>
        match readEntries n s2 with
        | none => none
        | some (d, s3) => some ((k, v) :: d, s3)

/-- Embedding of `readDictionary`: 4-byte entry count then the entries.
A negative count makes `dictionary.reserve(entries)` request a huge
allocation (the `int` is converted to `size_t`), modelled as `none`. -/
def readDictionary (s : List Nat) : Option (Dict × List Nat) :=
  match s with
  | b0 :: b1 :: b2 :: b3 :: s1 =>
    let n := toInt32 (le32 b0 b1 b2 b3)
    if n < 0 then none
    else readEntries n.toNat s1
  | _ => none

/-! Scene graph construction (`SceneGraph::addNode` and the three
`read*Node` entry points). -/

/-- Embedding of the front half of `addNode<NODE>(id)`: grow the node
vector if `id >= nodes.size()`, then fail on a non-null slot.  Returns the
grown storage and the index; the caller stores the finished node there.
A negative id indexes the vector with a huge converted `size_t`, modelled
as `oob`. -/
def reserveNode (g : Graph) (id : Int) : Except LoadErr (Graph × Nat) :=
  if id < 0 then .error .oob
  else
    let i := id.toNat
    let g1 := if g.length ≤ i then g ++ List.replicate (i + 1 - g.length) none else g
    if (g1.getD i none).isSome then .error .duplicateNode
    else .ok (g1, i)

/-- Read `numOfFrames` dictionaries for a transform node. -/
def readFrames : Nat → List Nat → Option (List Dict × List Nat)
  | 0, s => some ([], s)
  | n + 1, s =>
    match readDictionary s with
    | none => none
    | some (d, s1) =>
      match readFrames n s1 with
      | none => none
      | some (ds, s2) => some (d :: ds, s2)

/-- Embedding of `SceneGraph::readTransformNode`. -/
def readTransformNode (g : Graph) (content : List Nat) : Except LoadErr Graph := do
  let (id, s0) ← orOOB (readInt32 content)
  let (g1, i) ← reserveNode g id
  let (attrs, s1) ← orOOB (readDictionary s0)
  let (childId, s2) ← orOOB (readInt32 s1)
  let (reserved, s3) ← orOOB (readInt32 s2)
  if reserved = -1 then do
    let (layerId, s4) ← orOOB (readInt32 s3)
    let (numFrames, s5) ← orOOB (readInt32 s4)
    if numFrames < 0 then .error .oob
    else do
      let (frames, _) ← orOOB (readFrames numFrames.toNat s5)
      .ok (g1.set i (some (.transform attrs childId layerId frames)))
  else .error .reservedField

/-- Read `numOfChildren` child node ids for a group node. -/
def readChildIds : Nat → List Nat → Option (List Int × List Nat)
  | 0, s => some ([], s)
  | n + 1, s =>
    match readInt32 s with
    | none => none
    | some (i, s1) =>
      match readChildIds n s1 with
      | none => none
      | some (is, s2) => some (i :: is, s2)

/-- Embedding of `SceneGraph::readGroupNode`. -/
def readGroupNode (g : Graph) (content : List Nat) : Except LoadErr Graph := do
  let (id, s0) ← orOOB (readInt32 content)
  let (g1, i) ← reserveNode g id
  let (attrs, s1) ← orOOB (readDictionary s0)
  let (numChildren, s2) ← orOOB (readInt32 s1)
  if numChildren < 0 then .error .oob
  else do
    let (childIds, _) ← orOOB (readChildIds numChildren.toNat s2)
    .ok (g1.set i (some (.group attrs childIds)))

/-- Read `numOfModels` model references (model id plus attribute
dictionary) for a shape node; the model id is stored in a `uint32_t`. -/
def readModelRefs : Nat → List Nat → Option (List (Nat × Dict) × List Nat)
  | 0, s => some ([], s)
  | n + 1, s =>
    match s with
    | b0 :: b1 :: b2 :: b3 :: s1 =>
      match readDictionary s1 with
      | none => none
      | some (d, s2) =>
        match readModelRefs n s2 with
        | none => none
        | some (ms, s3) => some ((le32 b0 b1 b2 b3, d) :: ms, s3)
    | _ => none

/-- Embedding of `SceneGraph::readShapeNode`. -/
def readShapeNode (g : Graph) (content : List Nat) : Except LoadErr Graph := do
  let (id, s0) ← orOOB (readInt32 content)
  let (g1, i) ← reserveNode g id
  let (attrs, s1) ← orOOB (readDictionary s0)
  let (numModels, s2) ← orOOB (readInt32 s1)
  if numModels < 0 then .error .oob
  else do
    let (refs, _) ← orOOB (readModelRefs numModels.toNat s2)
    .ok (g1.set i (some (.shape attrs refs)))

/-! The scene interpreter: `VoxReader::load` after the main chunk has been
decoded. -/

def tagPACK : List Nat := [0x50, 0x41, 0x43, 0x4B]
def tagSIZE : List Nat := [0x53, 0x49, 0x5A, 0x45]
def tagXYZI : List Nat := [0x58, 0x59, 0x5A, 0x49]
def tagRGBA : List Nat := [0x52, 0x47, 0x42, 0x41]
def tagMAIN : List Nat := [0x4D, 0x41, 0x49, 0x4E]
def tagnTRN : List Nat := [0x6E, 0x54, 0x52, 0x4E]
def tagnGRP : List Nat := [0x6E, 0x47, 0x52, 0x50]
def tagnSHP : List Nat := [0x6E, 0x53, 0x48, 0x50]
def tagLAYR : List Nat := [0x4C, 0x41, 0x59, 0x52]
def tagMATL : List Nat := [0x4D, 0x41, 0x54, 0x4C]

/-- Embedding of the constructor `Model::Model(sizeChunk, xyziChunk)`:
three `uint32_t` bounds from the SIZE content, then `voxelCount` 4-byte
voxel records from the XYZI content starting at byte 4.  The constructor
performs no tag check; `none` models its out-of-bounds content reads when
the content vectors are shorter than the indices used. -/
def mkModel (sizeChunk xyziChunk : Chunk) : Option Model :=
  match getLe32 sizeChunk.content 0, getLe32 sizeChunk.content 4, getLe32 sizeChunk.content 8,
      getLe32 xyziChunk.content 0 with
  | some sx, some sy, some sz, some n =>
    if 4 * n + 4 ≤ xyziChunk.content.length then
      some { sizeX := sx, sizeY := sy, sizeZ := sz,
             voxels := (List.range n).map (fun i =>
               { x := xyziChunk.content.getD (4 * (i + 1)) 0,
                 y := xyziChunk.content.getD (4 * (i + 1) + 1) 0,
                 z := xyziChunk.content.getD (4 * (i + 1) + 2) 0,
                 colorIndex := xyziChunk.content.getD (4 * (i + 1) + 3) 0 }) }
    else none
  | _, _, _, _ => none

/-- Decoding of an RGBA chunk content: `memcpy` of 1024 bytes into 256
4-byte `RGBA` structs, member order `r, g, b, a`. -/
def decodePalette (content : List Nat) : List RGBA :=
  (List.range 256).map (fun i =>
    { r := content.getD (4 * i) 0, g := content.getD (4 * i + 1) 0,
      b := content.getD (4 * i + 2) 0, a := content.getD (4 * i + 3) 0 })

/-- Grow-or-shrink to exactly `n` entries, as `std::vector::resize(n)`
does (default-constructed empty dictionaries fill new slots). -/
def resizeDicts (l : List Dict) (n : Nat) : List Dict :=
  if n ≤ l.length then l.take n else l ++ List.replicate (n - l.length) []

/-- Embedding of the `while (iter != main.children.end())` dispatch loop of
`VoxReader::load`.  Each branch advances the iterator exactly as the C++
does; in particular the `nTRN`/`nGRP` branches advance it twice (once via
`iter++` in the call argument, once via the `++iter; // chunk processed`
after the tag dispatch), and the SIZE branch consumes the following chunk
without inspecting its tag. -/
def interpLoop (st : ReaderState) : List Chunk → Except LoadErr ReaderState
  | [] => .ok st
  | c :: rest =>
    if c.id = tagSIZE then
      -- auto sizeChunkIter = iter++; auto xyziChunkIter = iter++;
      match rest with
      | [] => .error .oob   -- xyziChunkIter is end(); *xyziChunkIter is out of bounds
      | x :: rest2 =>
        match mkModel c x with
        | none => .error .oob
        | some m => interpLoop { st with models := st.models ++ [m] } rest2
    else if c.id = tagRGBA then
      -- palette = new std::vector<RGBA>; memcpy(.., &content[0], 4 * 256);
      if 1024 ≤ c.content.length then
        interpLoop { st with palette := .custom (decodePalette c.content) } rest
      else .error .oob
    else if c.id.headD 0 = 0x6E then
      if c.id = tagnTRN then
        match readTransformNode st.graph c.content with
        | .error e => .error e
        | .ok g =>
          -- iter++ already happened in the call; ++iter skips one more chunk
          match rest with
          | [] => .error .oob   -- ++iter past end()
          | _ :: rest2 => interpLoop { st with graph := g } rest2
      else if c.id = tagnGRP then
        match readGroupNode st.graph c.content with
        | .error e => .error e
        | .ok g =>
          match rest with
          | [] => .error .oob
          | _ :: rest2 => interpLoop { st with graph := g } rest2
      else if c.id = tagnSHP then
        -- readShapeNode(iter->content.data()) does not advance; only ++iter does
        match readShapeNode st.graph c.content with
        | .error e => .error e
        | .ok g => interpLoop { st with graph := g } rest
      else .error .unknownNode
    else if c.id = tagLAYR then
      match readInt32 c.content with
      | none => .error .oob
      | some (layerId, s) =>
        if layerId < 0 then .error .oob  -- signed id against size_t: huge index
        else
          let i := layerId.toNat
          -- if (layerId <= layers.size()) layers.resize(layerId + 1);
          let ls := if i ≤ st.layers.length then resizeDicts st.layers (i + 1) else st.layers
          if i < ls.length then
            match readDictionary s with
            | none => .error .oob
            | some (d, _) => interpLoop { st with layers := ls.set i d } rest
          else .error .oob    -- layers[layerId] out of bounds
    else if c.id = tagMATL then
      match readInt32 c.content with
      | none => .error .oob
      | some (matId, s) =>
        if matId < 0 then .error .oob
        else
          let i := matId.toNat
          let ms := if i ≤ st.materials.length then resizeDicts st.materials (i + 1)
            else st.materials
          if i < ms.length then
            match readDictionary s with
            | none => .error .oob
            | some (d, _) => interpLoop { st with materials := ms.set i d } rest
          else .error .oob
    else
      -- unrecognized tag: ++iter, skipped without error
      interpLoop st rest

/-- Embedding of the part of `load` between `Chunk main(s);` and the
dispatch loop: `main.children[0]` is inspected unconditionally (out of
bounds when the root has no children), and a leading PACK chunk has its
model count read (`readInt(&pack.content[0])`) and is then stepped over. -/
def interpretMain (st : ReaderState) (main : Chunk) : Except LoadErr ReaderState :=
  match main.children with
  | [] => .error .oob      -- Chunk &pack = main.children[0] on an empty vector
  | first :: others =>
    if first.id = tagPACK then
      match getLe32 first.content 0 with
      | none => .error .oob
      | some _ => interpLoop st others    -- modelCount is never used to bound the loop
    else interpLoop st (first :: others)

/-- Embedding of the state reset at the top of `load`: `models.clear();`
then `if (palette != &DEFAULT_PALETTE) delete palette;` — the palette
pointer is not re-pointed after the delete, and the scene graph, layers
and materials are not touched at all. -/
def loadReset (st : ReaderState) : ReaderState :=
  { st with
    models := [],
    palette := match st.palette with
      | .custom _ => .dangling
      | p => p }

/-- Embedding of `VoxReader::load`.  Note the magic test as written in the
source: `if (!strcmp(magic, "VOX ")) throw ...` — `strcmp` returns 0 on
equality, so the exception is thrown exactly when the four magic bytes DO
spell `VOX `.  Reads past the end of the stream are modelled as
`truncated`. -/
def load (st : ReaderState) (stream : List Nat) : Except LoadErr ReaderState :=
  let st1 := loadReset st
  match stream with
  | m0 :: m1 :: m2 :: m3 :: s1 =>
    if [m0, m1, m2, m3] = [0x56, 0x4F, 0x58, 0x20] then .error .badMagic
    else
      match s1 with
      | v0 :: v1 :: v2 :: v3 :: s2 =>
        if toInt32 (le32 v0 v1 v2 v3) = 150 then
          match parseChunk (s2.length + 1) s2 0 with
          | none => .error .truncated
          | some (main, _, _) => interpretMain st1 main
        else .error .badVersion
      | _ => .error .truncated
  | _ => .error .truncated

/-! The projection engine `VoxReader::view2d`. -/

def INVERT_UP : Nat := 1
def FROM_BEHIND : Nat := 2
def SWAP_AXIS : Nat := 4

/-- The viewport selector `VoxReader::Viewport2d`. -/
inductive Viewport where
  | XZ
  | XY
  | YZ
deriving DecidableEq, Repr

/-- Wrap an integer into `uint32_t` range, for the unsigned arithmetic in
the `invertUp` and `fromBehind` lambdas. -/
def u32 (n : Int) : Nat := (n % 4294967296).toNat

/-- The flip `max - v - 1` performed on `uint32_t` values. -/
def flipCoord (v maxv : Nat) : Nat := u32 ((maxv : Int) - v - 1)

/-- The depth coordinate `vz` of a voxel for a viewport (`voxel.y` for XZ,
`voxel.z` for XY, `voxel.x` for YZ; each stored in a `uint8_t`).  The code
applies the same selection through the stored pointer to obtain `vzOther`,
but by then the pointed-to loop copy is dead (see `view2dStep`); applied to
a voxel value, this selection is what the claim's rule (`cellWinner`)
uses. -/
def depth2d (viewport : Viewport) (v : Voxel) : Nat :=
  match viewport with
  | .XZ => v.y % 256
  | .XY => v.z % 256
  | .YZ => v.x % 256

/-- The projected grid coordinates `(vx, vy)` of a voxel: the axis mapping
of the `switch (viewport)`, the `fromBehind`/`invertUp` flips, the
truncation into the `uint8_t` locals, and the `SWAP_AXIS` exchange. -/
def projCell (viewport : Viewport) (flags : Nat) (m : Model) (v : Voxel) : Nat × Nat :=
  let invertUp := fun (c maxc : Nat) => if flags &&& INVERT_UP ≠ 0 then flipCoord c maxc else c
  let fromBehind := fun (c maxc : Nat) => if flags &&& FROM_BEHIND ≠ 0 then flipCoord c maxc else c
  let vx :=
    match viewport with
    | .XZ => (fromBehind v.x m.sizeX) % 256
    | .XY => (fromBehind v.x m.sizeX) % 256
    | .YZ => (fromBehind v.y m.sizeY) % 256
  let vy :=
    match viewport with
    | .XZ => (invertUp v.z m.sizeZ) % 256
    | .XY => (invertUp v.y m.sizeY) % 256
    | .YZ => (invertUp v.z m.sizeZ) % 256
  if flags &&& SWAP_AXIS ≠ 0 then (vy, vx) else (vx, vy)

/-- The depth comparator lambda: with `FROM_BEHIND` greater depth values
are nearer, otherwise lower depth values are nearer.  In the program it is
only ever called with a `vzOther` read through the stale stored pointer
(undefined behaviour; practically the current voxel's own depth, so it
never returns true); the claim's rule (`cellWinner`) calls it on voxel
values. -/
def nearer (flags : Nat) (vz vzOther : Nat) : Bool :=
  if flags &&& FROM_BEHIND ≠ 0 then decide (vzOther < vz) else decide (vz < vzOther)

/-- One iteration of the voxel loop of `view2d`.  The C++ grid cell is a
`Voxel*`; every store is `view[vx][vy] = &voxel`, the address of the
range-for loop-local copy, so every non-null cell holds that one pointer —
modelled as `Option Unit` (null or the loop-slot address).  An empty cell
is filled; for an occupied cell the code reads
`vzOther = view[vx][vy]->y/z/x` through the stored pointer, but the copy
it pointed to was destroyed at the end of its iteration — undefined
behaviour, surfaced as `staleRead` (practically the slot holds the current
voxel, so the strict comparator compares the depth with itself and never
replaces).  An index outside the allocated `sizeX × sizeZ` grid is an
out-of-bounds vector access, surfaced as `oob`. -/
def view2dStep (viewport : Viewport) (flags : Nat) (m : Model)
    (grid : List (List (Option Unit))) (v : Voxel) :
    Except LoadErr (List (List (Option Unit))) :=
  if hx : (projCell viewport flags m v).1 < grid.length then
    if hy : (projCell viewport flags m v).2 < (grid.get ⟨(projCell viewport flags m v).1, hx⟩).length then
      match (grid.get ⟨(projCell viewport flags m v).1, hx⟩).get ⟨(projCell viewport flags m v).2, hy⟩ with
      | none =>
        .ok (grid.set (projCell viewport flags m v).1
          ((grid.get ⟨(projCell viewport flags m v).1, hx⟩).set (projCell viewport flags m v).2 (some ())))
      | some _ => .error .staleRead
    else .error .oob
  else .error .oob

/-- The voxel loop of `view2d` over the remaining voxels. -/
def view2dGo (viewport : Viewport) (flags : Nat) (m : Model) :
    List Voxel → List (List (Option Unit)) → Except LoadErr (List (List (Option Unit)))
  | [], g => .ok g
  | v :: vs, g =>
    match view2dStep viewport flags m g v with
    | .error e => .error e
    | .ok g1 => view2dGo viewport flags m vs g1

/-- Embedding of `VoxReader::view2d` on a model: the grid is allocated
with `view.resize(model.sizeX)` and `xRow.resize(model.sizeZ)` — always
`sizeX` columns of `sizeZ` cells, for every viewport — and then filled by
the voxel loop.  (All pointers still stored at return address the dead
loop copy, so even a successful grid dangles for the caller.) -/
def view2d (m : Model) (viewport : Viewport) (flags : Nat) :
    Except LoadErr (List (List (Option Unit))) :=
  view2dGo viewport flags m m.voxels (List.replicate m.sizeX (List.replicate m.sizeZ none))

/-- Row access in a projected grid; out-of-range gives the empty row. -/
def rowAt (g : List (List (Option Unit))) (c : Nat) : List (Option Unit) :=
  g[c]?.getD []

/-- Modelled from the claim's words (spec side, for comparison with the
code): the per-cell occupancy rule C7 states — the first voxel mapping to
the cell is kept unconditionally, a later one replaces it only when
strictly nearer under the comparator, ties keep the earlier voxel; voxels
mapping elsewhere leave the cell unchanged. -/
def cellUpdate (viewport : Viewport) (flags : Nat) (m : Model) (cell : Nat × Nat)
    (acc : Option Voxel) (v : Voxel) : Option Voxel :=
  if projCell viewport flags m v = cell then
    match acc with
    | none => some v
    | some w => if nearer flags (depth2d viewport v) (depth2d viewport w) then some v else some w
  else acc

/-- Modelled from the claim's words (spec side): fold of the claimed
occupancy rule over a voxel list, starting from an empty cell. -/
def cellWinner (viewport : Viewport) (flags : Nat) (m : Model) (cell : Nat × Nat)
    (vs : List Voxel) : Option Voxel :=
  vs.foldl (cellUpdate viewport flags m cell) none

/-! Concrete fixtures used by the claim theorems. -/

def sizeContent222 : List Nat := le32enc 2 ++ le32enc 2 ++ le32enc 2
def xyziContent1 : List Nat := le32enc 1 ++ [0, 0, 0, 5]
def sizeChunk222 : Chunk := Chunk.mk tagSIZE sizeContent222 []
def xyziChunk1 : Chunk := Chunk.mk tagXYZI xyziContent1 []
def mainTwo : Chunk := Chunk.mk tagMAIN [] [sizeChunk222, xyziChunk1]
def model222 : Model := { sizeX := 2, sizeY := 2, sizeZ := 2, voxels := [⟨0, 0, 0, 5⟩] }

/-- Transform-node content: node id 0, empty attribute dictionary, child
node id 1, reserved field `-1`, layer id 0, zero frames. -/
def ntrnContent24 : List Nat :=
  le32enc 0 ++ le32enc 0 ++ le32enc 1 ++ [255, 255, 255, 255] ++ le32enc 0 ++ le32enc 0
def ntrnChunk : Chunk := Chunk.mk tagnTRN ntrnContent24 []
def rgbaChunk : Chunk := Chunk.mk tagRGBA (List.replicate 1024 17) []
def layrChunk (i : Nat) (d : List Nat) : Chunk := Chunk.mk tagLAYR (le32enc i ++ d) []
def dictNone : List Nat := le32enc 0
def dictAB : List Nat := le32enc 1 ++ le32enc 1 ++ [0x41] ++ le32enc 1 ++ [0x42]
def dictCD : List Nat := le32enc 1 ++ le32enc 1 ++ [0x43] ++ le32enc 1 ++ [0x44]

/-- A reader that already holds objects from a previous decode. -/
def staleState : ReaderState :=
  { models := [{ sizeX := 9, sizeY := 9, sizeZ := 9, voxels := [] }],
    palette := .custom [⟨1, 2, 3, 4⟩],
    graph := [some (.group [] [])],
    layers := [[([0x4B], [0x56])]],
    materials := [[([0x4D], [0x57])]] }

/-- A 1×1×2 model whose two voxels both project to cell (0,0) of the XY
view with depths 1 then 0. -/
def modelTie : Model :=
  { sizeX := 1, sizeY := 1, sizeZ := 2, voxels := [⟨0, 0, 1, 7⟩, ⟨0, 0, 0, 8⟩] }


/-! Theorems. -/

theorem le32_le32enc (n : Nat) :
    le32 (n % 256) (n / 256 % 256) (n / 65536 % 256) (n / 16777216 % 256) = n % 4294967296 := by
  unfold le32
  omega

theorem toInt32_of_lt (n : Nat) (h : n < 2147483648) : toInt32 n = n := by
  unfold toInt32
  split <;> omega

theorem toInt32_le32enc (n : Nat) (h : n < 2147483648) :
    toInt32 (le32 (n % 256) (n / 256 % 256) (n / 65536 % 256) (n / 16777216 % 256)) = n := by
  rw [le32_le32enc]
  unfold toInt32
  split <;> omega

theorem parseChunk_leaf (f : Nat) (a b c d : Nat) (content rest : List Nat) (off : Int)
    (hc : content.length < 2147483648) :
    parseChunk (f + 2) (serializeChunk (Chunk.mk [a, b, c, d] content []) ++ rest) off
      = some (Chunk.mk [a, b, c, d] content [], rest, off + (12 + content.length)) := by
  have h0 : toInt32 (le32 (0 % 256) (0 / 256 % 256) (0 / 65536 % 256) (0 / 16777216 % 256))
      = 0 := toInt32_le32enc 0 (by omega)
  have hn := toInt32_le32enc content.length hc
  simp only [serializeChunk, serializeChunks, chunksSize, le32enc, List.append_assoc,
    List.cons_append, List.nil_append, List.append_nil]
  simp only [parseChunk, hn, h0]
  rw [if_neg (by omega)]
  rw [if_neg (by simp)]
  simp only [Int.toNat_natCast, List.take_left, List.drop_left]
  simp only [parseChildren]
  rw [if_neg (by omega)]
  simp only [Option.some.injEq, Prod.mk.injEq]
  refine ⟨trivial, trivial, by ring⟩

theorem parseChildren_succ (fuel : Nat) (startByte childrenSize : Int) (s : List Nat) (off : Int) :
    parseChildren (fuel + 1) startByte childrenSize s off
      = if off - startByte < childrenSize then
          match parseChunk fuel s off with
          | none => none
          | some (c, s1, off1) =>
            match parseChildren fuel startByte childrenSize s1 off1 with
            | none => none
            | some (cs, s2, off2) => some (c :: cs, s2, off2)
        else some ([], s, off) := rfl

theorem parseChildren_flat (cs : List Chunk) :
    ∀ (fuel : Nat) (startByte off K : Int) (rest : List Nat),
      (∀ c ∈ cs, c.children = [] ∧ c.id.length = 4 ∧ c.content.length < 2147483648) →
      cs.length + 2 ≤ fuel →
      off - startByte + chunksSize cs = K →
      parseChildren fuel startByte K (serializeChunks cs ++ rest) off
        = some (cs, rest, off + chunksSize cs) := by
  induction cs with
  | nil =>
    intro fuel startByte off K rest _ hfuel hK
    obtain ⟨f, rfl⟩ : ∃ f, fuel = f + 1 := ⟨fuel - 1, by omega⟩
    simp only [chunksSize, List.length_nil, Nat.cast_zero, add_zero] at hK ⊢
    simp only [serializeChunks, List.nil_append]
    simp only [parseChildren]
    rw [if_neg (by omega)]
  | cons c cs ih =>
    intro fuel startByte off K rest hwf hfuel hK
    obtain ⟨hc0, hc1, hc2⟩ := hwf c (List.mem_cons_self c cs)
    obtain ⟨f, rfl⟩ : ∃ f, fuel = f + 3 := ⟨fuel - 3, by simp at hfuel; omega⟩
    obtain ⟨cid, ccontent, cchildren⟩ := c
    simp only [Chunk.children] at hc0
    subst hc0
    simp only [Chunk.id] at hc1
    simp only [Chunk.content] at hc2
    match cid, hc1 with
    | [t0, t1, t2, t3], _ =>
    have hsz : chunkSize (Chunk.mk [t0, t1, t2, t3] ccontent []) = 12 + ccontent.length := by
      simp [chunkSize, chunksSize]
    simp only [chunksSize, hsz] at hK
    simp only [serializeChunks, List.append_assoc]
    have hf : f + 3 = (f + 2) + 1 := by omega
    rw [hf, parseChildren_succ (f + 2)]
    rw [if_pos (by push_cast at hK ⊢; omega)]
    rw [parseChunk_leaf f t0 t1 t2 t3 ccontent (serializeChunks cs ++ rest) off hc2]
    simp only []
    rw [ih (f + 2) startByte (off + (12 + ccontent.length)) K rest
      (fun c hc => hwf c (List.mem_cons_of_mem _ hc))
      (by simp at hfuel ⊢; omega)
      (by push_cast at hK ⊢; omega)]
    simp only [Option.some.injEq, Prod.mk.injEq, List.cons.injEq, true_and]
    simp only [chunksSize, hsz]
    push_cast
    ring

/-- Parsing a root chunk with empty content whose children are childless:
the loop consumes the whole declared children region from the stream, but
the returned offset counts that region twice (once from the children
actually read, once from the `*byteOffset += childrenSize` after the
loop). -/
theorem parseChunk_flatRoot (t0 t1 t2 t3 : Nat) (cs : List Chunk) (rest : List Nat) (fuel : Nat)
    (hwf : ∀ c ∈ cs, c.children = [] ∧ c.id.length = 4 ∧ c.content.length < 2147483648)
    (hK : chunksSize cs < 2147483648)
    (hfuel : cs.length + 3 ≤ fuel) :
    parseChunk fuel (serializeChunk (Chunk.mk [t0, t1, t2, t3] [] cs) ++ rest) 0
      = some (Chunk.mk [t0, t1, t2, t3] [] cs, rest, 12 + 2 * (chunksSize cs : Int)) := by
  obtain ⟨f, rfl⟩ : ∃ f, fuel = f + 1 := ⟨fuel - 1, by omega⟩
  have h0 : toInt32 (le32 (0 % 256) (0 / 256 % 256) (0 / 65536 % 256) (0 / 16777216 % 256))
      = 0 := toInt32_le32enc 0 (by omega)
  have hKe := toInt32_le32enc (chunksSize cs) hK
  simp only [serializeChunk, le32enc, List.length_nil, List.append_assoc, List.cons_append,
    List.nil_append]
  simp only [parseChunk, h0, hKe]
  rw [if_neg (by omega)]
  rw [if_neg (by simp)]
  simp only [Int.toNat_zero, List.take_zero, List.drop_zero]
  rw [parseChildren_flat cs f (0 + 12) (0 + 12 + 0) (chunksSize cs) rest hwf (by omega)
    (by push_cast; ring)]
  simp only [Option.some.injEq, Prod.mk.injEq, true_and]
  push_cast
  ring

/-- C2 counterexample: a well-formed byte sequence for a root chunk
(content size 0, children size 13) holding one leaf child (content size 1).
Decoding consumes the whole 25-byte sequence, but the running byte offset
advances by 38, not by `12 + contentSize + childrenSize = 25` as the claim
states: the declared children size is added again after the child loop. -/
theorem c2_counterexample :
    (parseChunk 5 (serializeChunk (Chunk.mk [0x4D, 0x41, 0x49, 0x4E] []
        [Chunk.mk [0x53, 0x49, 0x5A, 0x45] [7] []])) 0).map
      (fun r => (r.2.1, r.2.2)) = some (([] : List Nat), (38 : Int))
    ∧ (38 : Int) ≠ 12 + 0 + 13 := by
  constructor
  · rfl
  · decide

/-- C2 (amended): decoding a well-formed leaf chunk (children size 0)
consumes `12 + contentSize` stream bytes and advances the offset by exactly
that amount; but for a root chunk with empty content and childless children
the child loop does read the full declared children region from the stream
(consuming `12 + childrenSize` bytes in total), while the running byte
offset advances by `12 + 2 * childrenSize`, because `*byteOffset +=
childrenSize` is executed again after the loop. -/
theorem c2_chunk_offset_bookkeeping :
    (∀ (id content rest : List Nat) (off : Int) (fuel : Nat),
        id.length = 4 → content.length < 2147483648 → 2 ≤ fuel →
        parseChunk fuel (serializeChunk (Chunk.mk id content []) ++ rest) off
          = some (Chunk.mk id content [], rest, off + (12 + content.length)))
    ∧ (∀ (id rest : List Nat) (cs : List Chunk) (fuel : Nat),
        id.length = 4 →
        (∀ c ∈ cs, c.children = [] ∧ c.id.length = 4 ∧ c.content.length < 2147483648) →
        chunksSize cs < 2147483648 → cs.length + 3 ≤ fuel →
        parseChunk fuel (serializeChunk (Chunk.mk id [] cs) ++ rest) 0
          = some (Chunk.mk id [] cs, rest, 12 + 2 * (chunksSize cs : Int))) := by
  constructor
  · intro id content rest off fuel hid hc hfuel
    obtain ⟨f, rfl⟩ : ∃ f, fuel = f + 2 := ⟨fuel - 2, by omega⟩
    match id, hid with
    | [t0, t1, t2, t3], _ => exact parseChunk_leaf f t0 t1 t2 t3 content rest off hc
  · intro id rest cs fuel hid hwf hK hfuel
    match id, hid with
    | [t0, t1, t2, t3], _ => exact parseChunk_flatRoot t0 t1 t2 t3 cs rest fuel hwf hK hfuel

/-- Witness for `c2_chunk_offset_bookkeeping` at concrete inputs: a leaf
chunk with two content bytes, and a root chunk holding one 13-byte leaf
child. -/
theorem c2_chunk_offset_bookkeeping_witness :
    (parseChunk 2 (serializeChunk (Chunk.mk [0x53, 0x49, 0x5A, 0x45] [7, 9] []) ++ [5]) 100
      = some (Chunk.mk [0x53, 0x49, 0x5A, 0x45] [7, 9] [], [5], 100 + (12 + 2)))
    ∧ (parseChunk 4 (serializeChunk (Chunk.mk [0x4D, 0x41, 0x49, 0x4E] []
          [Chunk.mk [0x53, 0x49, 0x5A, 0x45] [7] []]) ++ []) 0
      = some (Chunk.mk [0x4D, 0x41, 0x49, 0x4E] []
          [Chunk.mk [0x53, 0x49, 0x5A, 0x45] [7] []], [],
          12 + 2 * ((chunksSize [Chunk.mk [0x53, 0x49, 0x5A, 0x45] [7] []]) : Int))) := by
  constructor
  · have h := c2_chunk_offset_bookkeeping.1 [0x53, 0x49, 0x5A, 0x45] [7, 9] [5] 100 2
      rfl (by decide) (by decide)
    simpa using h
  · exact c2_chunk_offset_bookkeeping.2 [0x4D, 0x41, 0x49, 0x4E] []
      [Chunk.mk [0x53, 0x49, 0x5A, 0x45] [7] []] 4 rfl
      (by
        rintro c hc
        rw [List.mem_singleton] at hc
        subst hc
        exact ⟨rfl, rfl, by simp [Chunk.content]⟩)
      (by decide) (by decide)

/-- C1: the magic check is inverted.  A stream that begins with the exact
magic `VOX ` and version 150 followed by a valid MAIN chunk is rejected
with the magic error, while the same stream with a wrong magic (`XXXX`)
passes both header checks and is decoded into a scene. -/
theorem c1_magic_check_inverted :
    load ReaderState.empty
        ([0x56, 0x4F, 0x58, 0x20] ++ le32enc 150 ++ serializeChunk mainTwo)
      = .error .badMagic
    ∧ load ReaderState.empty
        ([0x58, 0x58, 0x58, 0x58] ++ le32enc 150 ++ serializeChunk mainTwo)
      = .ok { models := [model222], palette := .defaultPalette, graph := [],
              layers := [], materials := [] } :=
  ⟨rfl, rfl⟩

set_option maxRecDepth 2000 in
/-- C3: the chunk after an nTRN chunk is skipped without being dispatched.
Interpreting `[nTRN, RGBA]` handles the transform node but never processes
the RGBA chunk (the palette keeps its prior value), even though the RGBA
handler does fire when the chunk is dispatched on its own. -/
theorem c3_chunk_after_ntrn_skipped :
    interpLoop ReaderState.empty [ntrnChunk, rgbaChunk]
      = .ok { models := [], palette := .defaultPalette,
              graph := [some (.transform [] 1 0 [])], layers := [], materials := [] }
    ∧ ∀ content : List Nat, 1024 ≤ content.length →
        interpLoop ReaderState.empty [Chunk.mk tagRGBA content []]
          = .ok { models := [], palette := .custom (decodePalette content),
                  graph := [], layers := [], materials := [] } := by
  constructor
  · rfl
  · intro content h
    simp only [interpLoop, Chunk.id, Chunk.content, tagSIZE, tagRGBA]
    norm_num
    rw [if_pos h]
    simp only [interpLoop, ReaderState.empty]

/-- Witness for the universally quantified half of
`c3_chunk_after_ntrn_skipped`: a lone RGBA chunk with 1024 content bytes
does replace the palette. -/
theorem c3_chunk_after_ntrn_skipped_witness :
    interpLoop ReaderState.empty [Chunk.mk tagRGBA (List.replicate 1024 17) []]
      = .ok { models := [], palette := .custom (decodePalette (List.replicate 1024 17)),
              graph := [], layers := [], materials := [] } :=
  c3_chunk_after_ntrn_skipped.2 (List.replicate 1024 17)
    (by simp only [List.length_replicate, le_refl])

/-- C4: a load does not fully replace prior state.  Loading a valid input
(header accepted, one SIZE+XYZI model, no RGBA/LAYR/MATL/scene chunks)
into a reader that already holds a scene keeps the old scene graph, layers
and materials, and leaves the palette dangling instead of default; the
result therefore differs from loading the same input into a fresh
reader. -/
theorem c4_state_not_fully_reset :
    load staleState ([0x58, 0x58, 0x58, 0x58] ++ le32enc 150 ++ serializeChunk mainTwo)
      = .ok { models := [model222], palette := .dangling,
              graph := [some (.group [] [])],
              layers := [[([0x4B], [0x56])]],
              materials := [[([0x4D], [0x57])]] }
    ∧ load ReaderState.empty ([0x58, 0x58, 0x58, 0x58] ++ le32enc 150 ++ serializeChunk mainTwo)
      = .ok { models := [model222], palette := .defaultPalette, graph := [],
              layers := [], materials := [] }
    ∧ ({ models := [model222], palette := .dangling,
         graph := [some (.group [] [])],
         layers := [[([0x4B], [0x56])]],
         materials := [[([0x4D], [0x57])]] } : ReaderState)
      ≠ { models := [model222], palette := .defaultPalette, graph := [],
          layers := [], materials := [] } := by
  refine ⟨rfl, rfl, by decide⟩

/-- C5: a SIZE chunk not followed by an XYZI chunk does not raise a format
error.  A trailing SIZE dereferences the end iterator (out of bounds), and
a SIZE followed by a chunk of any other tag silently consumes that chunk
as if it were XYZI and appends a model from it. -/
theorem c5_size_pairing_unchecked :
    interpLoop ReaderState.empty [sizeChunk222] = .error .oob
    ∧ interpLoop ReaderState.empty [sizeChunk222, Chunk.mk [0x41, 0x42, 0x43, 0x44] (le32enc 0) []]
      = .ok { models := [{ sizeX := 2, sizeY := 2, sizeZ := 2, voxels := [] }],
              palette := .defaultPalette, graph := [], layers := [], materials := [] } :=
  ⟨rfl, rfl⟩

/-- C8: `readDictionary` and `readString` have no bounds checks; on a
truncated buffer they read past the end (modelled as `none`, there is no
error path in the source) instead of raising a format error.  On complete
input the dictionary is decoded in encoded order consuming exactly the
encoded bytes. -/
theorem c8_dictionary_reads_unchecked :
    readDictionary [1, 0, 0, 0] = none
    ∧ readString [5, 0, 0, 0, 0x41] = none
    ∧ readDictionary (dictAB ++ [9, 9]) = some ([([0x41], [0x42])], [9, 9]) :=
  ⟨rfl, rfl, rfl⟩

/-- C9: the LAYR resize condition is inverted (`layerId <= layers.size()`
instead of `>=`).  Storing ids 0, 1 and then 0 again shrinks the
collection to a single entry, destroying the dictionary stored at id 1;
an id one past the current growth pattern (id 2 on an empty collection)
is stored without growing — an out-of-bounds write.  The MATL branch has
the same shape. -/
theorem c9_layr_resize_inverted :
    interpLoop ReaderState.empty
        [layrChunk 0 dictNone, layrChunk 1 dictAB, layrChunk 0 dictCD]
      = .ok { models := [], palette := .defaultPalette, graph := [],
              layers := [[([0x43], [0x44])]], materials := [] }
    ∧ interpLoop ReaderState.empty [layrChunk 2 dictNone] = .error .oob
    ∧ interpLoop ReaderState.empty [Chunk.mk tagMATL (le32enc 2 ++ dictNone) []]
      = .error .oob :=
  ⟨rfl, rfl, rfl⟩

/-! C6 and C7: the projection engine. -/

theorem gridSet_dims (g : List (List (Option Unit))) (i j : Nat) (x : Option Unit)
    (hi : i < g.length) :
    (g.set i ((g.get ⟨i, hi⟩).set j x)).length = g.length
    ∧ ∀ k, (rowAt (g.set i ((g.get ⟨i, hi⟩).set j x)) k).length = (rowAt g k).length := by
  refine ⟨List.length_set .., ?_⟩
  intro k
  unfold rowAt
  rw [List.getElem?_set]
  split
  case isFalse => rfl
  case isTrue hik =>
    subst hik
    simp [List.getElem?_eq_getElem hi, List.get_eq_getElem]

theorem view2dStep_dims (viewport : Viewport) (flags : Nat) (m : Model)
    (g : List (List (Option Unit))) (v : Voxel) (g1 : List (List (Option Unit)))
    (h : view2dStep viewport flags m g v = .ok g1) :
    g1.length = g.length ∧ ∀ i, (rowAt g1 i).length = (rowAt g i).length := by
  unfold view2dStep at h
  split at h
  case isFalse => exact absurd h (by simp)
  case isTrue hx =>
    split at h
    case isFalse => exact absurd h (by simp)
    case isTrue hy =>
      split at h
      · injection h with h
        subst h
        exact gridSet_dims g _ _ _ hx
      · exact absurd h (by simp)

theorem view2dGo_dims (viewport : Viewport) (flags : Nat) (m : Model) (vs : List Voxel) :
    ∀ (g g1 : List (List (Option Unit))), view2dGo viewport flags m vs g = .ok g1 →
      g1.length = g.length ∧ ∀ i, (rowAt g1 i).length = (rowAt g i).length := by
  induction vs with
  | nil =>
    intro g g1 h
    injection h with h
    subst h
    exact ⟨rfl, fun _ => rfl⟩
  | cons v vs ih =>
    intro g g1 h
    unfold view2dGo at h
    split at h
    case h_1 => exact absurd h (by simp)
    case h_2 g2 hstep =>
      obtain ⟨h1, h2⟩ := view2dStep_dims viewport flags m g v g2 hstep
      obtain ⟨h3, h4⟩ := ih g2 g1 h
      exact ⟨h3.trans h1, fun i => (h4 i).trans (h2 i)⟩

/-- C6 counterexample: on a model with bounds `(1, 2, 3)` the XY view is
claimed to have column-extent `sizeX = 1` and row-extent `sizeY = 2`, but
the returned grid has rows of length `sizeZ = 3`. -/
theorem c6_counterexample :
    view2d { sizeX := 1, sizeY := 2, sizeZ := 3, voxels := [] } .XY 0
      = .ok [[none, none, none]]
    ∧ (3 : Nat) ≠ 2 :=
  ⟨rfl, by decide⟩

/-- C6 (amended): for every model, viewport and flag set, a successful
`view2d` returns a grid with exactly `sizeX` columns of exactly `sizeZ`
cells each — the allocation ignores the chosen viewport and the
`SWAP_AXIS` flag. -/
theorem c6_grid_always_sizeX_sizeZ (m : Model) (viewport : Viewport) (flags : Nat)
    (g : List (List (Option Unit))) (h : view2d m viewport flags = .ok g) :
    g.length = m.sizeX ∧ ∀ row ∈ g, row.length = m.sizeZ := by
  obtain ⟨h1, h2⟩ := view2dGo_dims viewport flags m m.voxels _ g h
  constructor
  · rw [h1, List.length_replicate]
  · intro row hrow
    obtain ⟨i, hi, hrowi⟩ := List.mem_iff_getElem.mp hrow
    have h3 := h2 i
    unfold rowAt at h3
    have hi0 : i < m.sizeX := by
      have hcopy := hi
      rw [h1, List.length_replicate] at hcopy
      exact hcopy
    rw [List.getElem?_eq_getElem hi] at h3
    rw [List.getElem?_eq_getElem (by rw [List.length_replicate]; exact hi0)] at h3
    rw [List.getElem_replicate] at h3
    simp only [Option.getD_some, List.length_replicate] at h3
    rw [← hrowi]
    exact h3

/-- Witness for `c6_grid_always_sizeX_sizeZ` at a concrete model and
view. -/
theorem c6_grid_always_sizeX_sizeZ_witness :
    ([[some (), none], [none, none]] : List (List (Option Unit))).length = model222.sizeX
    ∧ ∀ row ∈ ([[some (), none], [none, none]] : List (List (Option Unit))),
        row.length = model222.sizeZ :=
  c6_grid_always_sizeX_sizeZ model222 .XZ 0 [[some (), none], [none, none]] rfl

/-- C7: the strictly-nearer replacement the claim describes is never
performed by the code.  `view2d` stores `&voxel`, the address of the
range-for loop-local copy, in each cell; when a later voxel maps to an
occupied cell, the stored depth `vzOther` is read through that pointer
after the copy's lifetime has ended — undefined behaviour, surfaced as
`staleRead` (practically the slot holds the current voxel, so the strict
comparator never fires and every returned pointer dangles).  On the
two-voxel input of `modelTie` (depths 1 then 0 into cell (0,0) of the XY
view) the claim's own rule (`cellWinner`) selects the nearer second voxel,
but the program instead performs the stale read; with a single voxel per
cell the comparison is not reached and `view2d` completes. -/
theorem c7_stale_pointer_comparison :
    view2d modelTie .XY 0 = .error .staleRead
    ∧ cellWinner .XY 0 modelTie (0, 0) modelTie.voxels = some ⟨0, 0, 0, 8⟩
    ∧ view2d { sizeX := 1, sizeY := 1, sizeZ := 2, voxels := [⟨0, 0, 1, 7⟩] } .XY 0
      = .ok [[some (), none]] :=
  ⟨rfl, rfl, rfl⟩

/-- C10: `load` inspects `main.children[0]` before checking that the root
has any children; for an input whose root chunk declares zero children the
access is out of bounds (for every prior reader state), rather than
producing an empty scene. -/
theorem c10_first_child_inspected_unconditionally :
    ∀ st : ReaderState,
      load st ([0x58, 0x58, 0x58, 0x58] ++ le32enc 150
          ++ serializeChunk (Chunk.mk tagMAIN [] [])) = .error .oob :=
  fun _ => rfl

end VoxReader
